import Mathlib

/-!
Shallow embedding of the session-synchronization core of a browser chat client:
the conversation controller (ChatScreen), the session directory
(SidebarConversationList), the send entry points (ChatInputBar, FeatureCards),
the durable key-value store (localStorage) and the broadcast events
(sessionsUpdated, sessionChange, createNewChat).

Network requests are modelled by passing their outcome as an explicit argument;
every operation returns its new component state together with an ordered trace
of the store writes, event publishes and network requests it performed, in the
order the corresponding statements execute in the source.  An async handler
that lets a rejected promise escape is marked with threw = true.
-/

/-- Message roles as in the frontend source: the assistant role is the string
literal bot in the TypeScript union. -/
inductive Role where
  | user
  | bot
deriving DecidableEq, Repr

/-- One transcript entry, ChatMessage in ChatScreen.tsx. -/
structure ChatMessage where
  role : Role
  text : String
deriving DecidableEq, Repr

/-- One backend exchange pair from GET /sessions/id/messages: a user message
together with an optional assistant response (null is modelled as none). -/
structure ExchangePair where
  message : String
  response : Option String
deriving DecidableEq, Repr

/-- One session summary from GET /sessions, ChatSession in
SidebarConversationList. -/
structure ChatSession where
  id : Nat
  name : String
deriving DecidableEq, Repr

/-- The durable key-value store (localStorage), restricted to the two keys the
synchronization core uses: token and activeSession.  The identifier is stored
with String(id) and read back with Number(...), which round-trips, so it is
modelled directly as an optional natural number. -/
structure LocalStorage where
  token : Option String
  activeSession : Option Nat
deriving DecidableEq, Repr

/-- The observable actions an operation performs, in statement order: writes to
the durable store, event publishes on the window (the notification bus), and
network requests.  publishSessionChange is the active-session-changed topic,
publishSessionsUpdated the sessions-changed topic, and publishCreateNewChat the
force-new-session signal. -/
inductive Act where
  | setActiveStore (id : Nat)
  | removeActiveStore
  | publishSessionsUpdated
  | publishSessionChange (id : Nat)
  | publishCreateNewChat
  | netListSessions
  | netCreateSession (seed : Option String)
  | netSendMessage (sessionId : Nat) (body : String)
  | netDeleteSessions
deriving DecidableEq, Repr

/-- Effect of one action on the durable store; publishes and network requests
leave it unchanged. -/
def applyAction (store : LocalStorage) : Act → LocalStorage
  | Act.setActiveStore id => { store with activeSession := some id }
  | Act.removeActiveStore => { store with activeSession := none }
  | _ => store

/-- The durable store after replaying a trace of actions. -/
def storeAfter (store : LocalStorage) (tr : List Act) : LocalStorage :=
  tr.foldl applyAction store

/-- Whether an action is a publish on the notification bus. -/
def Act.isPublish : Act → Bool
  | Act.publishSessionsUpdated => true
  | Act.publishSessionChange _ => true
  | Act.publishCreateNewChat => true
  | _ => false

/-- Whether an action is an outgoing network request. -/
def Act.isNet : Act → Bool
  | Act.netListSessions => true
  | Act.netCreateSession _ => true
  | Act.netSendMessage _ _ => true
  | Act.netDeleteSessions => true
  | _ => false

/-- JavaScript truthiness of the number-or-null session identifiers held in
component state: null is falsy, and so is the number 0. -/
def jsFalsyId : Option Nat → Bool
  | none => true
  | some n => n == 0

/-- JavaScript truthiness of a nullable string (the token, a response, an
optional first message): null and the empty string are falsy. -/
def jsTruthyStr : Option String → Bool
  | none => false
  | some s => !(s == "")

/-- JavaScript String.prototype.trim over the character list: drop whitespace
from both ends.  (String.trim from the library does not reduce in the kernel,
so the equivalent list version is used.) -/
def trimChars (l : List Char) : List Char :=
  ((l.dropWhile Char.isWhitespace).reverse.dropWhile Char.isWhitespace).reverse

/-- msg.trim() as the source calls it. -/
def jsTrim (s : String) : String :=
  String.mk (trimChars s.data)

/-- The flattening inside ChatScreen.fetchMessages:
data.flatMap(m => [userEntry, m.response && botEntry]).filter(Boolean).
The second element of each generated pair is the falsy response value itself
when the response is null or the empty string, and filter(Boolean) removes it;
this is modelled with an Option element and filterMap id. -/
def fetchMessages (data : List ExchangePair) : List ChatMessage :=
  (data.flatMap fun m =>
    [some { role := Role.user, text := m.message },
     match m.response with
     | some r => if r == "" then none else some { role := Role.bot, text := r }
     | none => none]).filterMap id

/-- Transcript flattening exactly as claim C2 words it: each pair contributes
the user entry followed by the assistant entry for its response, except that a
pair with a null response contributes only the user entry.  (Spec-side
definition, to be compared with fetchMessages.) -/
def transcriptPerC2 (data : List ExchangePair) : List ChatMessage :=
  data.flatMap fun m =>
    match m.response with
    | some r => [{ role := Role.user, text := m.message }, { role := Role.bot, text := r }]
    | none => [{ role := Role.user, text := m.message }]

/-- Transcript flattening as amended: a pair whose response is null or the
empty string contributes only the user entry. -/
def transcriptAmended (data : List ExchangePair) : List ChatMessage :=
  data.flatMap fun m =>
    match m.response with
    | some r =>
      if r == "" then [{ role := Role.user, text := m.message }]
      else [{ role := Role.user, text := m.message }, { role := Role.bot, text := r }]
    | none => [{ role := Role.user, text := m.message }]

/-- Component state of SidebarConversationList: the fetched snapshot, the
active identifier, and the clear-all modal flags. -/
structure SidebarState where
  sessions : List ChatSession
  activeId : Option Nat
  showConfirm : Bool
  deleting : Bool
deriving DecidableEq, Repr

/-- Result of a sidebar operation: new component state plus the action trace. -/
structure SidebarRun where
  state : SidebarState
  trace : List Act
deriving DecidableEq, Repr

/-- The predicate s.id === activeId used in data.find inside fetchSessions;
strict equality of a number with null is false. -/
def idMatchesActive (s : ChatSession) (activeId : Option Nat) : Bool :=
  match activeId with
  | some a => s.id == a
  | none => false

/-- SidebarConversationList.fetchSessions.  result is some data when the GET
/sessions response was ok, none otherwise.  Without a truthy token the handler
returns before any request.  On success the snapshot is replaced and, if
(!activeId || !data.find(s => s.id === activeId)) && data.length > 0, the first
fetched session is selected: state update, store write, then the sessionChange
publish — the nonempty-length conjunct is rendered as the match on data. -/
def fetchSessions (st : SidebarState) (store : LocalStorage)
    (result : Option (List ChatSession)) : SidebarRun :=
  if !(jsTruthyStr store.token) then { state := st, trace := [] }
  else
    match result with
    | none => { state := st, trace := [Act.netListSessions] }
    | some data =>
      let st1 := { st with sessions := data }
      match data with
      | [] => { state := st1, trace := [Act.netListSessions] }
      | d0 :: _ =>
        if jsFalsyId st.activeId || !(data.any fun s => idMatchesActive s st.activeId) then
          { state := { st1 with activeId := some d0.id },
            trace := [Act.netListSessions, Act.setActiveStore d0.id,
                      Act.publishSessionChange d0.id] }
        else { state := st1, trace := [Act.netListSessions] }

/-- SidebarConversationList.handleSelect: set the active identifier in state,
write it to the store, then publish sessionChange with the identifier. -/
def handleSelect (st : SidebarState) (id : Nat) : SidebarRun :=
  { state := { st with activeId := some id },
    trace := [Act.setActiveStore id, Act.publishSessionChange id] }

/-- Outcome of the DELETE /sessions request in the clear-all handler.  The
handler never inspects the HTTP status, so any resolved response counts as
resolved; a rejected promise escapes the async handler. -/
inductive DeleteOutcome where
  | resolved
  | rejected
deriving DecidableEq, Repr

/-- Result of the clear-all click handler: new state, trace, and whether the
handler threw (a rejected await with no surrounding try). -/
structure ClearAllRun where
  state : SidebarState
  trace : List Act
  threw : Bool
deriving DecidableEq, Repr

/-- The clear-all confirmation onClick handler in SidebarConversationList:
setDeleting(true); if the token is falsy, return (deleting stays true);
otherwise await the DELETE — a rejection escapes here — then empty the
snapshot, clear the active identifier in state and store, publish
sessionsUpdated then createNewChat, and reset the modal flags. -/
def clearAllClick (st : SidebarState) (store : LocalStorage)
    (outcome : DeleteOutcome) : ClearAllRun :=
  let st1 := { st with deleting := true }
  if !(jsTruthyStr store.token) then { state := st1, trace := [], threw := false }
  else
    match outcome with
    | DeleteOutcome.rejected =>
      { state := st1, trace := [Act.netDeleteSessions], threw := true }
    | DeleteOutcome.resolved =>
      { state := { st1 with sessions := [], activeId := none,
                            deleting := false, showConfirm := false },
        trace := [Act.netDeleteSessions, Act.removeActiveStore,
                  Act.publishSessionsUpdated, Act.publishCreateNewChat],
        threw := false }

/-- Component state of ChatScreen: the transcript, the input box value, the
active session identifier, and the busy flag. -/
structure ChatState where
  messages : List ChatMessage
  input : String
  sessionId : Option Nat
  isLoading : Bool
deriving DecidableEq, Repr

/-- Outcome of the POST /sessions request (session creation). -/
inductive CreateOutcome where
  | ok (id : Nat)
  | httpError
  | rejected
deriving DecidableEq, Repr

/-- Outcome of the POST /sessions/id/message request. -/
inductive SendOutcome where
  | ok (answer : String)
  | httpError
  | rejected
deriving DecidableEq, Repr

/-- Result of a ChatScreen operation: new state, trace, and whether an
unhandled rejection escaped the handler. -/
structure ChatRun where
  state : ChatState
  trace : List Act
  threw : Bool
deriving DecidableEq, Repr

/-- The apology appended when the send response has a non-2xx status. -/
def httpErrorApology : String :=
  "I\x27m having trouble connecting right now. Please try again in a moment."

/-- The apology appended when the send request rejects (caught network error). -/
def networkErrorApology : String :=
  "Sorry, there seems to be a connection issue. Please check your internet and try again."

/-- ChatScreen.handleNewChat: const body = firstMessage ? { message } : {} —
an empty first message is falsy and sends an empty body.  On ok: set the
identifier in state, write it to the store, clear the transcript, publish
sessionsUpdated.  On a non-ok response nothing happens after the request. -/
def handleNewChat (st : ChatState) (firstMessage : Option String)
    (result : Option Nat) : ChatRun :=
  let seed := if jsTruthyStr firstMessage then firstMessage else none
  match result with
  | none => { state := st, trace := [Act.netCreateSession seed], threw := false }
  | some id =>
    { state := { st with sessionId := some id, messages := [] },
      trace := [Act.netCreateSession seed, Act.setActiveStore id,
                Act.publishSessionsUpdated],
      threw := false }

/-- Common tail of ChatScreen.handleSend once a session identifier sid is in
hand: setInput(empty), append the optimistic trimmed user entry, issue the send
request, then by outcome append the bot answer and publish sessionsUpdated, or
append the matching apology; finally clear isLoading.  pre is the trace of the
implicit-creation prefix. -/
def sendCommon (st : ChatState) (msg : String) (sid : Nat) (pre : List Act)
    (sendOut : SendOutcome) : ChatRun :=
  let st2 : ChatState :=
    { st with input := "",
              messages := st.messages ++ [{ role := Role.user, text := jsTrim msg }] }
  match sendOut with
  | SendOutcome.ok answer =>
    { state := { st2 with
        messages := st2.messages ++ [{ role := Role.bot, text := answer }],
        isLoading := false },
      trace := pre ++ [Act.netSendMessage sid msg, Act.publishSessionsUpdated],
      threw := false }
  | SendOutcome.httpError =>
    { state := { st2 with
        messages := st2.messages ++ [{ role := Role.bot, text := httpErrorApology }],
        isLoading := false },
      trace := pre ++ [Act.netSendMessage sid msg],
      threw := false }
  | SendOutcome.rejected =>
    { state := { st2 with
        messages := st2.messages ++ [{ role := Role.bot, text := networkErrorApology }],
        isLoading := false },
      trace := pre ++ [Act.netSendMessage sid msg],
      threw := false }

/-- ChatScreen.handleSend.  Blank guard first (before the busy flag is set).
If the current sessionId is falsy, an implicit POST /sessions is made with the
raw message as seed: on ok the returned identifier is set in state, written to
the store, and sessionsUpdated is published before the send proceeds; on a
non-ok response the handler clears isLoading and returns; the creation request
sits outside the try block, so a rejection escapes with isLoading still true.
The send body uses the untrimmed msg; the optimistic entry uses msg.trim(). -/
def handleSend (st : ChatState) (msg : String) (createOut : CreateOutcome)
    (sendOut : SendOutcome) : ChatRun :=
  if jsTrim msg == "" then { state := st, trace := [], threw := false }
  else
    let st1 := { st with isLoading := true }
    if jsFalsyId st1.sessionId then
      match createOut with
      | CreateOutcome.rejected =>
        { state := st1, trace := [Act.netCreateSession (some msg)], threw := true }
      | CreateOutcome.httpError =>
        { state := { st1 with isLoading := false },
          trace := [Act.netCreateSession (some msg)], threw := false }
      | CreateOutcome.ok id =>
        sendCommon { st1 with sessionId := some id } msg id
          [Act.netCreateSession (some msg), Act.setActiveStore id,
           Act.publishSessionsUpdated] sendOut
    else
      sendCommon st1 msg (st1.sessionId.getD 0) [] sendOut

namespace ChatInputBar

/-- ChatInputBar.handleSend (also reached from the Enter key handler, which
checks !isLoading again): forwards input.trim() to onSend only when the trimmed
input is nonblank and isLoading is false; none means the call was ignored. -/
def handleSend (input : String) (isLoading : Bool) : Option String :=
  if !(jsTrim input == "") && !isLoading then some (jsTrim input) else none

/-- ChatInputBar.handleSuggestionClick: forwards the suggestion to onSend
unconditionally — there is no isLoading check on this path. -/
def handleSuggestionClick (suggestion : String) : Option String :=
  some suggestion

end ChatInputBar

/-- FeatureCards: each card button calls onPrompt(c.desc), and MainChat wires
onPrompt directly to onSend; the forward is unconditional (no busy check). -/
def featureCardPrompt (desc : String) : Option String :=
  some desc

/-- Every publish in the trace observes the given identifier in the durable
store: replaying the prefix of the trace strictly before any publish action
yields a store whose activeSession is some id. -/
def publishesSeeActive (store : LocalStorage) (tr : List Act) (id : Nat) : Prop :=
  ∀ j a, tr[j]? = some a → Act.isPublish a = true →
    (storeAfter store (tr.take j)).activeSession = some id

/-- Claim C2, counterexample: on a pair whose response is the empty string the
code drops the assistant entry, while the flattening exactly as the claim words
it keeps an assistant entry for every non-null response, so the two disagree at
this input. -/
theorem c2_counterexample :
    fetchMessages [{ message := "A", response := some "" }] ≠
      transcriptPerC2 [{ message := "A", response := some "" }] := by decide

/-- Claim C2 (amended): for every backend-returned list of exchange pairs, the
derived transcript is the in-order concatenation of the user entry followed by
the assistant entry for each pair, where a pair whose response is null or the
empty string contributes only the user entry; in particular the pairs A with
response B and C with null response flatten to user A, assistant B, user C. -/
theorem c2_transcript_flattening :
    (∀ data : List ExchangePair, fetchMessages data = transcriptAmended data) ∧
    fetchMessages [{ message := "A", response := some "B" },
                   { message := "C", response := none }] =
      [{ role := Role.user, text := "A" }, { role := Role.bot, text := "B" },
       { role := Role.user, text := "C" }] := by
  constructor
  · intro data
    induction data with
    | nil => rfl
    | cons m rest ih =>
      rcases m with ⟨msg, _ | r⟩
      · simpa [fetchMessages, transcriptAmended] using ih
      · by_cases hr : r = ""
        · subst hr
          simpa [fetchMessages, transcriptAmended] using ih
        · simpa [fetchMessages, transcriptAmended, hr] using ih
  · decide

/-- Claim C10: a fetched pair whose response is the empty string contributes
only its user entry to the flattening, in any position of the list — the falsy
response value is filtered out, exactly as a null response is. -/
theorem c10_empty_response_no_assistant_entry (pre post : List ExchangePair) (msg : String) :
    fetchMessages (pre ++ { message := msg, response := some "" } :: post) =
      fetchMessages pre ++ { role := Role.user, text := msg } :: fetchMessages post := by
  simp [fetchMessages]

/-- Claim C7: a send whose input trims to the empty string is a no-op: the
component state is returned unchanged and the trace is empty, so no transcript
change, no network request, no store write and no publish happen. -/
theorem c7_blank_send_noop (st : ChatState) (msg : String) (co : CreateOutcome)
    (so : SendOutcome) (hb : jsTrim msg = "") :
    handleSend st msg co so = { state := st, trace := [], threw := false } := by
  simp [handleSend, hb]

/-- Claim C7 witness: the blank-send theorem applied to a three-space input. -/
theorem c7_blank_send_noop_witness :
    handleSend { messages := [], input := "", sessionId := some 3, isLoading := false } "   "
      CreateOutcome.httpError (SendOutcome.ok "a") =
    { state := { messages := [], input := "", sessionId := some 3, isLoading := false },
      trace := [], threw := false } :=
  c7_blank_send_noop _ _ _ _ (by decide)

/-- Claim C1, counterexample: a successful directory fetch returning the empty
list while no active identifier is set selects nothing, persists nothing and
publishes nothing — the auto-selection consequent fails because the guard in
the code also requires the fetched list to be nonempty. -/
theorem c1_counterexample :
    (fetchSessions { sessions := [{ id := 2, name := "old" }], activeId := none,
                     showConfirm := false, deleting := false }
        { token := some "tok", activeSession := none } (some [])).state.activeId = none ∧
    (fetchSessions { sessions := [{ id := 2, name := "old" }], activeId := none,
                     showConfirm := false, deleting := false }
        { token := some "tok", activeSession := none } (some [])).trace =
      [Act.netListSessions] := by decide

/-- Claim C1 (amended): for every successful directory fetch that returns a
nonempty list, if the currently active identifier is absent or does not occur
among the fetched sessions, the first fetched session becomes the active
identifier, the durable store holds it after the run, and an
active-session-changed (sessionChange) notification carrying it is published. -/
theorem c1_auto_select (st : SidebarState) (store : LocalStorage) (tok : String)
    (d0 : ChatSession) (rest : List ChatSession)
    (htok : store.token = some tok) (hne : tok ≠ "")
    (hact : st.activeId = none ∨
      ∃ a, st.activeId = some a ∧ ∀ s ∈ d0 :: rest, s.id ≠ a) :
    (fetchSessions st store (some (d0 :: rest))).state.activeId = some d0.id ∧
    (storeAfter store (fetchSessions st store (some (d0 :: rest))).trace).activeSession =
      some d0.id ∧
    Act.publishSessionChange d0.id ∈ (fetchSessions st store (some (d0 :: rest))).trace := by
  rcases hact with h | ⟨a, ha, hall⟩
  · simp [fetchSessions, jsTruthyStr, htok, hne, h, jsFalsyId, storeAfter, applyAction]
  · have h0 : idMatchesActive d0 st.activeId = false := by
      have hd : d0.id ≠ a := hall d0 (by simp)
      simp [ha, idMatchesActive, hd]
    have h1 : ∀ x ∈ rest, idMatchesActive x st.activeId = false := by
      intro x hx
      have hd : x.id ≠ a := hall x (by simp [hx])
      simp [ha, idMatchesActive, hd]
    have hc : jsFalsyId st.activeId = true ∨ ∀ x ∈ rest, idMatchesActive x st.activeId = false :=
      Or.inr h1
    simp [fetchSessions, jsTruthyStr, htok, hne, storeAfter, applyAction, h0, hc]

/-- Claim C1 witness: the amended auto-selection theorem applied to a stale
active identifier 9 and the fetched singleton list with identifier 4. -/
theorem c1_auto_select_witness :
    (fetchSessions { sessions := [], activeId := some 9, showConfirm := false, deleting := false }
        { token := some "tok", activeSession := some 9 }
        (some [{ id := 4, name := "a" }])).state.activeId = some 4 ∧
    (storeAfter { token := some "tok", activeSession := some 9 }
        (fetchSessions { sessions := [], activeId := some 9, showConfirm := false, deleting := false }
          { token := some "tok", activeSession := some 9 }
          (some [{ id := 4, name := "a" }])).trace).activeSession = some 4 ∧
    Act.publishSessionChange 4 ∈
      (fetchSessions { sessions := [], activeId := some 9, showConfirm := false, deleting := false }
        { token := some "tok", activeSession := some 9 }
        (some [{ id := 4, name := "a" }])).trace :=
  c1_auto_select _ _ "tok" _ _ rfl (by decide) (Or.inr ⟨9, rfl, by decide⟩)

/-- Claim C4, counterexample: when the bulk-delete request rejects, the
clear-all handler aborts before any of its cleanup — the snapshot keeps its
sessions and no force-new-session (createNewChat) signal is published,
contradicting the regardless-of-outcome claim. -/
theorem c4_counterexample :
    (clearAllClick { sessions := [{ id := 1, name := "s" }], activeId := some 1,
                     showConfirm := true, deleting := false }
        { token := some "tok", activeSession := some 1 }
        DeleteOutcome.rejected).state.sessions ≠ [] ∧
    (clearAllClick { sessions := [{ id := 1, name := "s" }], activeId := some 1,
                     showConfirm := true, deleting := false }
        { token := some "tok", activeSession := some 1 }
        DeleteOutcome.rejected).trace.count Act.publishCreateNewChat = 0 := by decide

/-- Claim C4 (amended): after every clear-all call in which a credential is
present and the bulk-delete request resolves (whatever its HTTP status), the
local snapshot is empty, the active identifier is absent from component state
and from the durable store after the run, a sessions-changed notification is
published, and the force-new-session signal is published exactly once. -/
theorem c4_clear_all (st : SidebarState) (store : LocalStorage) (tok : String)
    (htok : store.token = some tok) (hne : tok ≠ "") :
    (clearAllClick st store DeleteOutcome.resolved).state.sessions = [] ∧
    (clearAllClick st store DeleteOutcome.resolved).state.activeId = none ∧
    (storeAfter store (clearAllClick st store DeleteOutcome.resolved).trace).activeSession =
      none ∧
    Act.publishSessionsUpdated ∈ (clearAllClick st store DeleteOutcome.resolved).trace ∧
    (clearAllClick st store DeleteOutcome.resolved).trace.count Act.publishCreateNewChat = 1 := by
  simp +decide [clearAllClick, jsTruthyStr, htok, hne, storeAfter, applyAction]

/-- Claim C4 witness: the amended clear-all theorem applied to a one-session
snapshot with an active identifier and a resolved delete request. -/
theorem c4_clear_all_witness :
    (clearAllClick { sessions := [{ id := 1, name := "s" }], activeId := some 1,
                     showConfirm := true, deleting := false }
        { token := some "tok", activeSession := some 1 }
        DeleteOutcome.resolved).state.sessions = [] ∧
    (clearAllClick { sessions := [{ id := 1, name := "s" }], activeId := some 1,
                     showConfirm := true, deleting := false }
        { token := some "tok", activeSession := some 1 }
        DeleteOutcome.resolved).state.activeId = none ∧
    (storeAfter { token := some "tok", activeSession := some 1 }
        (clearAllClick { sessions := [{ id := 1, name := "s" }], activeId := some 1,
                         showConfirm := true, deleting := false }
          { token := some "tok", activeSession := some 1 }
          DeleteOutcome.resolved).trace).activeSession = none ∧
    Act.publishSessionsUpdated ∈
      (clearAllClick { sessions := [{ id := 1, name := "s" }], activeId := some 1,
                       showConfirm := true, deleting := false }
        { token := some "tok", activeSession := some 1 }
        DeleteOutcome.resolved).trace ∧
    (clearAllClick { sessions := [{ id := 1, name := "s" }], activeId := some 1,
                     showConfirm := true, deleting := false }
        { token := some "tok", activeSession := some 1 }
        DeleteOutcome.resolved).trace.count Act.publishCreateNewChat = 1 :=
  c4_clear_all _ _ "tok" rfl (by decide)

/-- The transcript entries appended after the send request, by outcome: the bot
answer on success, otherwise the apology matching the failure kind. -/
def sendTail : SendOutcome → List ChatMessage
  | SendOutcome.ok answer => [{ role := Role.bot, text := answer }]
  | SendOutcome.httpError => [{ role := Role.bot, text := httpErrorApology }]
  | SendOutcome.rejected => [{ role := Role.bot, text := networkErrorApology }]

/-- Claim C3: a nonblank send with no active session performs exactly one
session-creation request seeded with the text, followed by exactly one send
request addressed to the newly returned identifier — these are the only network
requests, in that order — and appends exactly one user transcript entry, the
trimmed text, before whatever entry the send outcome appends. -/
theorem c3_implicit_create_then_send (st : ChatState) (msg : String) (id : Nat)
    (so : SendOutcome) (hns : st.sessionId = none) (hnb : jsTrim msg ≠ "") :
    (handleSend st msg (CreateOutcome.ok id) so).trace.filter Act.isNet =
      [Act.netCreateSession (some msg), Act.netSendMessage id msg] ∧
    (handleSend st msg (CreateOutcome.ok id) so).state.messages =
      st.messages ++ { role := Role.user, text := jsTrim msg } :: sendTail so := by
  cases so <;>
    simp [handleSend, sendCommon, sendTail, hns, hnb, jsFalsyId, Act.isNet]

/-- Claim C3 witness: the implicit-create-then-send theorem applied to the text
hello with no active session, creation returning identifier 7 and the send
succeeding with answer hi. -/
theorem c3_implicit_create_then_send_witness :
    (handleSend { messages := [], input := "hello", sessionId := none, isLoading := false }
        "hello" (CreateOutcome.ok 7) (SendOutcome.ok "hi")).trace.filter Act.isNet =
      [Act.netCreateSession (some "hello"), Act.netSendMessage 7 "hello"] ∧
    (handleSend { messages := [], input := "hello", sessionId := none, isLoading := false }
        "hello" (CreateOutcome.ok 7) (SendOutcome.ok "hi")).state.messages =
      ([] : List ChatMessage) ++ { role := Role.user, text := jsTrim "hello" } ::
        sendTail (SendOutcome.ok "hi") :=
  c3_implicit_create_then_send _ _ 7 _ rfl (by decide)

/-- Claim C5: a nonblank send with an active session whose request fails — by a
non-2xx status or a rejection — leaves the transcript holding the optimistic
user entry plus exactly one synthetic assistant apology entry, throws nothing
to the caller, clears the busy flag, and keeps the active session. -/
theorem c5_send_failure_contained (st : ChatState) (msg : String) (n : Nat)
    (co : CreateOutcome) (so : SendOutcome)
    (hsid : st.sessionId = some n) (hn : n ≠ 0) (hnb : jsTrim msg ≠ "")
    (hfail : so = SendOutcome.httpError ∨ so = SendOutcome.rejected) :
    (handleSend st msg co so).state.messages =
      st.messages ++ [{ role := Role.user, text := jsTrim msg },
        { role := Role.bot,
          text := if so = SendOutcome.httpError then httpErrorApology
                  else networkErrorApology }] ∧
    (handleSend st msg co so).threw = false ∧
    (handleSend st msg co so).state.isLoading = false ∧
    (handleSend st msg co so).state.sessionId = some n := by
  rcases hfail with h | h <;> subst h <;>
    simp [handleSend, sendCommon, hsid, hnb, jsFalsyId, hn]

/-- Claim C5 witness: the failure-containment theorem applied to session 3, the
text hi, and a rejected send request. -/
theorem c5_send_failure_contained_witness :
    (handleSend { messages := [], input := "hi", sessionId := some 3, isLoading := false }
        "hi" CreateOutcome.httpError SendOutcome.rejected).state.messages =
      ([] : List ChatMessage) ++ [{ role := Role.user, text := jsTrim "hi" },
        { role := Role.bot,
          text := if SendOutcome.rejected = SendOutcome.httpError then httpErrorApology
                  else networkErrorApology }] ∧
    (handleSend { messages := [], input := "hi", sessionId := some 3, isLoading := false }
        "hi" CreateOutcome.httpError SendOutcome.rejected).threw = false ∧
    (handleSend { messages := [], input := "hi", sessionId := some 3, isLoading := false }
        "hi" CreateOutcome.httpError SendOutcome.rejected).state.isLoading = false ∧
    (handleSend { messages := [], input := "hi", sessionId := some 3, isLoading := false }
        "hi" CreateOutcome.httpError SendOutcome.rejected).state.sessionId = some 3 :=
  c5_send_failure_contained _ _ 3 _ _ rfl (by decide) (by decide) (Or.inr rfl)

/-- Claim C6: if the implicit session creation during a nonblank send with no
active session fails — non-2xx response or rejection — the whole send aborts:
the transcript is unchanged, the creation request is the only action performed
(so no send request, no store write and no publish), the controller still has
no session identifier, and the durable store is unchanged after the run. -/
theorem c6_create_failure_aborts (st : ChatState) (store : LocalStorage) (msg : String)
    (co : CreateOutcome) (so : SendOutcome)
    (hns : st.sessionId = none) (hnb : jsTrim msg ≠ "")
    (hfail : co = CreateOutcome.httpError ∨ co = CreateOutcome.rejected) :
    (handleSend st msg co so).state.messages = st.messages ∧
    (handleSend st msg co so).trace = [Act.netCreateSession (some msg)] ∧
    (handleSend st msg co so).state.sessionId = none ∧
    storeAfter store (handleSend st msg co so).trace = store := by
  rcases hfail with h | h <;> subst h <;>
    simp [handleSend, hns, hnb, jsFalsyId, storeAfter, applyAction]

/-- Claim C6 witness: the creation-failure theorem applied to the text hello
with no active session and a non-2xx creation response. -/
theorem c6_create_failure_aborts_witness :
    (handleSend { messages := [], input := "hello", sessionId := none, isLoading := false }
        "hello" CreateOutcome.httpError (SendOutcome.ok "hi")).state.messages = [] ∧
    (handleSend { messages := [], input := "hello", sessionId := none, isLoading := false }
        "hello" CreateOutcome.httpError (SendOutcome.ok "hi")).trace =
      [Act.netCreateSession (some "hello")] ∧
    (handleSend { messages := [], input := "hello", sessionId := none, isLoading := false }
        "hello" CreateOutcome.httpError (SendOutcome.ok "hi")).state.sessionId = none ∧
    storeAfter { token := some "tok", activeSession := none }
        (handleSend { messages := [], input := "hello", sessionId := none, isLoading := false }
          "hello" CreateOutcome.httpError (SendOutcome.ok "hi")).trace =
      { token := some "tok", activeSession := none } :=
  c6_create_failure_aborts _ _ _ _ _ rfl (by decide) (Or.inl rfl)

/-- Claim C8: in every operation that changes the active identifier — a sidebar
select, a new chat, the implicit creation inside a send, and the directory
auto-selection — the store write precedes every publish in the trace, so
replaying the trace prefix before any publish already shows the new identifier
in the durable store: a subscriber reacting to the publish observes the new
stored value. -/
theorem c8_write_before_publish :
    (∀ store st id, publishesSeeActive store (handleSelect st id).trace id) ∧
    (∀ store st fm id, publishesSeeActive store (handleNewChat st fm (some id)).trace id) ∧
    (∀ store st msg id so, st.sessionId = none → jsTrim msg ≠ "" →
      publishesSeeActive store (handleSend st msg (CreateOutcome.ok id) so).trace id) ∧
    (∀ store st tok d0 rest, store.token = some tok → tok ≠ "" →
      (jsFalsyId st.activeId || !((d0 :: rest).any fun s => idMatchesActive s st.activeId)) = true →
      publishesSeeActive store (fetchSessions st store (some (d0 :: rest))).trace d0.id) := by
  refine ⟨?_, ?_, ?_, ?_⟩
  · intro store st id j a hj hp
    rcases j with _ | _ | j
    · simp [handleSelect] at hj
      subst hj
      simp [Act.isPublish] at hp
    · simp [handleSelect, storeAfter, applyAction]
    · simp [handleSelect] at hj
  · intro store st fm id j a hj hp
    rcases j with _ | _ | _ | j
    · simp [handleNewChat] at hj
      subst hj
      simp [Act.isPublish] at hp
    · simp [handleNewChat] at hj
      subst hj
      simp [Act.isPublish] at hp
    · simp [handleNewChat, storeAfter, applyAction]
    · simp [handleNewChat] at hj
  · intro store st msg id so hns hnb j a hj hp
    cases so <;> rcases j with _ | _ | _ | _ | _ | j <;>
      first
        | (simp [handleSend, sendCommon, jsFalsyId, hns, hnb, storeAfter, applyAction]; done)
        | (simp [handleSend, sendCommon, jsFalsyId, hns, hnb] at hj
           subst hj
           simp [Act.isPublish] at hp)
  · intro store st tok d0 rest htok hne hcond j a hj hp
    have hc := hcond
    simp at hc
    rcases j with _ | _ | _ | j
    · simp [fetchSessions, jsTruthyStr, htok, hne, hc] at hj
      subst hj
      simp [Act.isPublish] at hp
    · simp [fetchSessions, jsTruthyStr, htok, hne, hc] at hj
      subst hj
      simp [Act.isPublish] at hp
    · simp [fetchSessions, jsTruthyStr, htok, hne, hc, storeAfter, applyAction]
    · simp [fetchSessions, jsTruthyStr, htok, hne, hc] at hj

/-- Claim C8 witness: the ordering theorem instantiated at a select of
identifier 5, observing the store at the publish found at index 1 of the
trace. -/
theorem c8_write_before_publish_witness :
    (storeAfter { token := some "tok", activeSession := none }
        ((handleSelect { sessions := [], activeId := none, showConfirm := false,
                         deleting := false } 5).trace.take 1)).activeSession = some 5 :=
  c8_write_before_publish.1 { token := some "tok", activeSession := none }
    { sessions := [], activeId := none, showConfirm := false, deleting := false } 5 1
    (Act.publishSessionChange 5) rfl rfl

/-- Claim C9, counterexample: with the busy flag already set and a session
active, a suggestion click still forwards its text to the send handler, and the
handler — which never consults the busy flag — still issues a network send
request: the further send call is not ignored, so a second request can be in
flight. -/
theorem c9_counterexample :
    ChatInputBar.handleSuggestionClick "Application deadlines" =
      some "Application deadlines" ∧
    Act.netSendMessage 1 "Application deadlines" ∈
      (handleSend { messages := [{ role := Role.user, text := "x" }], input := "",
                    sessionId := some 1, isLoading := true } "Application deadlines"
        CreateOutcome.httpError (SendOutcome.ok "a")).trace := by decide

/-- Claim C9 (amended): while a send is outstanding, further send attempts
through the input bar (Enter key or send button) are ignored, but a suggestion
click or a feature-card prompt forwards its text unconditionally and the send
handler performs no busy check: a nonblank send with an active session issues a
send request even when the busy flag is already set. -/
theorem c9_busy_guard (input s d msg : String) (st : ChatState) (n : Nat)
    (co : CreateOutcome) (so : SendOutcome)
    (hbusy : st.isLoading = true) (hsid : st.sessionId = some n) (hn : n ≠ 0)
    (hnb : jsTrim msg ≠ "") :
    ChatInputBar.handleSend input true = none ∧
    ChatInputBar.handleSuggestionClick s = some s ∧
    featureCardPrompt d = some d ∧
    Act.netSendMessage n msg ∈ (handleSend st msg co so).trace := by
  refine ⟨by simp [ChatInputBar.handleSend], rfl, rfl, ?_⟩
  cases so <;> simp [handleSend, sendCommon, hsid, hnb, jsFalsyId, hn]

/-- Claim C9 witness: the busy-guard theorem applied to a loading state with
session 1 and the text hi: the input bar ignores the call while the raw handler
still records a send request. -/
theorem c9_busy_guard_witness :
    ChatInputBar.handleSend "ignored text" true = none ∧
    ChatInputBar.handleSuggestionClick "Scholarship opportunities" =
      some "Scholarship opportunities" ∧
    featureCardPrompt "Show me available UK scholarships." =
      some "Show me available UK scholarships." ∧
    Act.netSendMessage 1 "hi" ∈
      (handleSend { messages := [], input := "", sessionId := some 1, isLoading := true }
        "hi" CreateOutcome.httpError SendOutcome.rejected).trace :=
  c9_busy_guard "ignored text" "Scholarship opportunities"
    "Show me available UK scholarships." "hi"
    { messages := [], input := "", sessionId := some 1, isLoading := true } 1
    CreateOutcome.httpError SendOutcome.rejected rfl rfl (by decide) (by decide)
